import Mathlib

/-!
Shallow embedding of `src/libcontainerd/client.go` (package libcontainerd):
the runtime-client facade of the container engine.  Each Go method that the
claims touch is translated into a pure Lean function over an explicit client
state (`ClientState`), an environment (`Env`) that decides the outcome of
every external call (daemon RPCs, fifo opening, Backend callbacks), and a
trace of observable actions (`Act`) recording the order of lock operations,
RPC issues, Backend notifications, registry mutations and log lines.
Go's `defer` blocks of `client.restore` and `client.Restore` are unfolded
into the explicit control flow they produce (deferred functions run in
reverse registration order once the return value is set).
-/

set_option autoImplicit false

namespace Libcontainerd

/-- Modelled from the spec: lifecycle state names. The states observed by the
Backend are Restore, Pause, Resume and Exit; the constants `StatePause`,
`StateResume`, `StateExit`, `StateRestore` are declared in a sibling file of
the package that is not under `src/`, so only their distinctness and use as
event/state tags matter here. -/
def StatePause : String := "pause"

/-- Modelled from the spec: the resume lifecycle state name. -/
def StateResume : String := "resume"

/-- Modelled from the spec: the exit lifecycle state name. -/
def StateExit : String := "exit"

/-- Modelled from the spec: the restore lifecycle state name. -/
def StateRestore : String := "restore"

/-- A backlog event as stored in `remote.pastEvents`: the fields of
`containerd.Event` that `client.go` reads are `Type` and `Status`.
(`Type` is a Lean keyword, so the field is called `typ`.) -/
structure Event where
  typ : String
  Status : Nat
deriving DecidableEq, Repr

/-- The `StateInfo` value passed to `Backend.StateChanged`.  In Go the fields
not mentioned at a construction site are zero-valued, hence the defaults. -/
structure StateInfo where
  State : String
  Pid : Nat := 0
  ExitCode : Nat := 0
deriving DecidableEq, Repr

/-- The daemon-side view of a container returned by the `State` RPC
(`containerd.Container`).  The field `sysPid` is modelled from the spec:
it is the value of the package's `systemPid` helper (not under `src/`),
"the OS-level process id of the init process as reported by the daemon". -/
structure ContainerdContainer where
  Id : String
  BundlePath : String
  Status : String
  Pids : List Nat
  sysPid : Nat
deriving DecidableEq, Repr

/-- The in-process `container` value built by `client.newContainer`.
Its embedded `process` gives it `id = filepath.Base(dir)` and `dir`;
`systemPid` is assigned by the caller.  The `pauseMonitor` is modelled as
the list of expected states of the waiters appended to it (the completion
channels are opaque).  The `processes` map and the `CreateOption`
application of `newContainer` are out of the claims' scope: the spec treats
options as "opaque configuration applied at container-object construction
time" whose errors are only logged. -/
structure Container where
  id : String
  dir : String
  systemPid : Nat := 0
  pauseMonitor : List String := []
deriving DecidableEq, Repr

/-- The mutable state of the `client` that the claims observe: the container
registry (`client.containers`) and the event backlog
(`remote.pastEvents`). -/
structure ClientState where
  containers : String → Option Container
  pastEvents : String → Option Event

/-- `client.appendContainer`: register a container under its `id`. -/
def ClientState.appendContainer (s : ClientState) (cont : Container) : ClientState :=
  { s with containers := fun i => if i = cont.id then some cont else s.containers i }

/-- `client.deleteContainer`: remove the registry entry for `id`. -/
def ClientState.deleteContainer (s : ClientState) (id : String) : ClientState :=
  { s with containers := fun i => if i = id then none else s.containers i }

/-- `delete(c.remote.pastEvents, id)`: remove the backlog entry for `id`. -/
def ClientState.deletePastEvent (s : ClientState) (id : String) : ClientState :=
  { s with pastEvents := fun i => if i = id then none else s.pastEvents i }

/-- Registering a container does not touch the backlog. -/
@[simp] theorem appendContainer_pastEvents (s : ClientState) (c : Container) :
    (s.appendContainer c).pastEvents = s.pastEvents := rfl

/-- Deleting a registry entry does not touch the backlog. -/
@[simp] theorem deleteContainer_pastEvents (s : ClientState) (id : String) :
    (s.deleteContainer id).pastEvents = s.pastEvents := rfl

/-- Consuming a backlog entry does not touch the registry. -/
@[simp] theorem deletePastEvent_containers (s : ClientState) (id : String) :
    (s.deletePastEvent id).containers = s.containers := rfl

/-- The environment decides the outcome of every external call `client.go`
makes.  A result of `none` means the call succeeded; `some msg` is the error
it returned.  `stateRPC` is the daemon `State` RPC: `Except.error` a
transport-level failure, `Except.ok` the list of containers in the reply.
`base` models `filepath.Base` (the path library is external to the file). -/
structure Env where
  stateRPC : String → Except String (List ContainerdContainer)
  updateContainer : String → String → Option String
  openFifos : String → Option String
  attachStreams : String → Option String
  stateChanged : String → StateInfo → Option String
  base : String → String

/-- Observable actions, in the order the Go code performs them. -/
inductive Act where
  | lockAct (id : String)
  | unlockAct (id : String)
  | stateRPCCall (id : String)
  | updateRPC (id : String) (status : String)
  | openFifosCall (id : String)
  | attachCall (id : String)
  | register (id : String)
  | deleteAct (id : String)
  | notifyCall (id : String) (info : StateInfo)
  | appendWaiter (id : String) (state : String)
  | waitChan (id : String)
  | logErrorAct (msg : String)
  | logWarnAct (msg : String)
  | logDebugAct (msg : String)
deriving DecidableEq, Repr

/-- `client.setState` (lines 124-153): lock, look up the container, reject a
zero `systemPid`, issue the `UpdateContainer` RPC, and on success append a
waiter to the container's pauseMonitor before unlocking and blocking on the
channel.  The result is the new state, the action trace, and the returned
error (`none` = nil). -/
def setState (env : Env) (s : ClientState) (id state : String) :
    ClientState × List Act × Option String :=
  match s.containers id with
  | none =>
      (s, [Act.lockAct id, Act.unlockAct id], some ("invalid container: " ++ id))
  | some container =>
      if container.systemPid = 0 then
        (s, [Act.lockAct id, Act.unlockAct id],
          some ("No active process for container " ++ id))
      else
        let st := if state = StatePause then "paused" else "running"
        match env.updateContainer id st with
        | some e =>
            (s, [Act.lockAct id, Act.updateRPC id st, Act.unlockAct id], some e)
        | none =>
            let container2 : Container :=
              { container with pauseMonitor := container.pauseMonitor ++ [state] }
            ({ s with containers := fun i =>
                 if i = id then some container2 else s.containers i },
             [Act.lockAct id, Act.updateRPC id st, Act.appendWaiter id state,
              Act.unlockAct id, Act.waitChan id],
             none)

/-- `client.Pause`. -/
def Pause (env : Env) (s : ClientState) (id : String) :
    ClientState × List Act × Option String :=
  setState env s id StatePause

/-- `client.Resume`. -/
def Resume (env : Env) (s : ClientState) (id : String) :
    ClientState × List Act × Option String :=
  setState env s id StateResume

/-- The loop of `client.getContainerdContainer` over `resp.Containers`:
return the first container of the reply whose `Id` matches. -/
def findContainer (id : String) : List ContainerdContainer → Option ContainerdContainer
  | [] => none
  | c :: rest => if c.Id = id then some c else findContainer id rest

/-- `client.getContainerdContainer` (lines 202-213): issue the `State` RPC;
propagate a transport error; otherwise scan the reply for the requested ID
and fail with "invalid state response" when it is absent. -/
def getContainerdContainer (env : Env) (id : String) :
    List Act × Except String ContainerdContainer :=
  match env.stateRPC id with
  | Except.error e => ([Act.stateRPCCall id], Except.error e)
  | Except.ok l =>
      match findContainer id l with
      | some c => ([Act.stateRPCCall id], Except.ok c)
      | none => ([Act.stateRPCCall id], Except.error "invalid state response")

/-- `client.restore` (lines 50-103), the registered-upstream restore path,
with both `defer`s unfolded: on the already-active early return the
compensating delete is not yet registered, so only the unlock runs; after
that point every error path runs `deleteContainer` and then `unlock`.
The backlog (`pastEvents`) is only read here, never written. -/
def restore (env : Env) (s : ClientState) (cont : ContainerdContainer) :
    ClientState × List Act × Option String :=
  let id := cont.Id
  let tr0 := [Act.lockAct id,
    Act.logDebugAct ("restore container " ++ id ++ " state " ++ cont.Status)]
  match s.containers id with
  | some _ =>
      (s, tr0 ++ [Act.unlockAct id], some ("container " ++ id ++ " is aleady active"))
  | none =>
      let container : Container :=
        { id := env.base cont.BundlePath, dir := cont.BundlePath,
          systemPid := cont.sysPid, pauseMonitor := [] }
      match env.openFifos container.id with
      | some e =>
          (s.deleteContainer id,
           tr0 ++ [Act.openFifosCall container.id, Act.deleteAct id, Act.unlockAct id],
           some e)
      | none =>
        match env.attachStreams id with
        | some e =>
            (s.deleteContainer id,
             tr0 ++ [Act.openFifosCall container.id, Act.attachCall id,
               Act.deleteAct id, Act.unlockAct id],
             some e)
        | none =>
          let s1 := s.appendContainer container
          let rinfo : StateInfo := { State := StateRestore, Pid := container.systemPid }
          let tr1 := tr0 ++ [Act.openFifosCall container.id, Act.attachCall id,
            Act.register container.id, Act.notifyCall id rinfo]
          match env.stateChanged id rinfo with
          | some e =>
              (s1.deleteContainer id, tr1 ++ [Act.deleteAct id, Act.unlockAct id], some e)
          | none =>
            match s1.pastEvents id with
            | some event =>
                if event.typ = StatePause ∨ event.typ = StateResume then
                  let info2 : StateInfo := { State := event.typ, Pid := container.systemPid }
                  match env.stateChanged id info2 with
                  | some e =>
                      (s1.deleteContainer id,
                       tr1 ++ [Act.notifyCall id info2, Act.deleteAct id, Act.unlockAct id],
                       some e)
                  | none =>
                      (s1, tr1 ++ [Act.notifyCall id info2, Act.unlockAct id], none)
                else
                  (s1, tr1 ++ [Act.logWarnAct "unexpected backlog event", Act.unlockAct id],
                   none)
            | none =>
                (s1, tr1 ++ [Act.unlockAct id], none)

/-- The exit code drained by the not-found branch of `client.Restore`:
the `Status` of the backlog event when one exists, otherwise 0. -/
def backlogExitCode (s : ClientState) (id : String) : Nat :=
  match s.pastEvents id with
  | some event => event.Status
  | none => 0

/-- `client.Restore` (lines 167-188): look the container up at the daemon.
If the lookup succeeds, run the private `restore` and log (never return)
its error.  Otherwise lock the ID, consume any backlog event (taking its
`Status` as the exit code, 0 when absent), and return the result of the
Backend `StateChanged` exit notification. -/
def Restore (env : Env) (s : ClientState) (id : String) :
    ClientState × List Act × Option String :=
  let look := getContainerdContainer env id
  match look.2 with
  | Except.ok cont =>
      let r := restore env s cont
      match r.2.2 with
      | some msg =>
          (r.1, look.1 ++ r.2.1 ++
            [Act.logErrorAct ("error restoring " ++ id ++ ": " ++ msg)], none)
      | none => (r.1, look.1 ++ r.2.1, none)
  | Except.error _ =>
      let code := backlogExitCode s id
      let s1 :=
        match s.pastEvents id with
        | some _ => s.deletePastEvent id
        | none => s
      let info : StateInfo := { State := StateExit, ExitCode := code }
      (s1, look.1 ++ [Act.lockAct id, Act.notifyCall id info, Act.unlockAct id],
       env.stateChanged id info)

/-- `client.GetPidsForContainer` (lines 190-200): look the container up at
the daemon and convert each reported pid to an `int`, in order. -/
def GetPidsForContainer (env : Env) (id : String) :
    List Act × Except String (List Int) :=
  match getContainerdContainer env id with
  | (tr, Except.error e) => (tr, Except.error e)
  | (tr, Except.ok cont) => (tr, Except.ok (cont.Pids.map (fun p => Int.ofNat p)))

/-- `a` occurs strictly before `b` in the trace `tr`. -/
def before (tr : List Act) (a b : Act) : Prop :=
  ∃ i j, i < j ∧ tr.get? i = some a ∧ tr.get? j = some b

/-- Claim C3: for every registered container whose `systemPid` is 0, `Pause`
and `Resume` fail with the "No active process" error, perform only
lock/unlock (no `UpdateContainer` RPC is issued, no waiter is appended to
the `PauseMonitor`) and leave the client state unchanged. -/
theorem pause_resume_no_active_process (env : Env) (s : ClientState) (id : String)
    (c : Container) (hreg : s.containers id = some c) (hpid : c.systemPid = 0) :
    Pause env s id =
      (s, [Act.lockAct id, Act.unlockAct id],
        some ("No active process for container " ++ id)) ∧
    Resume env s id =
      (s, [Act.lockAct id, Act.unlockAct id],
        some ("No active process for container " ++ id)) := by
  constructor <;> simp [Pause, Resume, setState, hreg, hpid]

/-- Environment for the C3 witness; the RPC outcomes are irrelevant because
the call must not reach them. -/
def envC3 : Env :=
  { stateRPC := fun _ => Except.error "unreachable"
    updateContainer := fun _ _ => none
    openFifos := fun _ => none
    attachStreams := fun _ => none
    stateChanged := fun _ _ => none
    base := fun p => p }

/-- A registered container with no active process. -/
def cC3 : Container := { id := "c1", dir := "/b/c1", systemPid := 0 }

/-- Client state for the C3 witness. -/
def sC3 : ClientState :=
  { containers := fun i => if i = "c1" then some cC3 else none
    pastEvents := fun _ => none }

/-- Witness for C3 at the concrete container "c1". -/
theorem pause_resume_no_active_process_witness :
    sC3.containers "c1" = some cC3 ∧ cC3.systemPid = 0 ∧
    (Pause envC3 sC3 "c1").2.2 = some "No active process for container c1" ∧
    (Resume envC3 sC3 "c1").2.1 = [Act.lockAct "c1", Act.unlockAct "c1"] := by
  have h := pause_resume_no_active_process envC3 sC3 "c1" cC3 (by rfl) (by rfl)
  refine ⟨rfl, rfl, ?_, ?_⟩
  · rw [h.1]
    rfl
  · rw [h.2]

/-- Environment for the C4 counterexample: the `UpdateContainer` RPC
succeeds. -/
def envC4 : Env :=
  { stateRPC := fun _ => Except.error "unreachable"
    updateContainer := fun _ _ => none
    openFifos := fun _ => none
    attachStreams := fun _ => none
    stateChanged := fun _ _ => none
    base := fun p => p }

/-- A registered container with an active process. -/
def cC4 : Container := { id := "c1", dir := "/b/c1", systemPid := 42 }

/-- Client state for the C4 counterexample. -/
def sC4 : ClientState :=
  { containers := fun i => if i = "c1" then some cC4 else none
    pastEvents := fun _ => none }

/-- Claim C4 counterexample: on a successful `Pause` of container "c1" the
waiter is appended to the `PauseMonitor` at trace position 2, strictly
BEFORE the per-ID unlock at position 3 (and the unlock never precedes the
append), refuting "a waiter is appended ... only after the per-ID lock is
released". -/
theorem setState_waiter_before_unlock_cex :
    (Pause envC4 sC4 "c1").2.1 =
      [Act.lockAct "c1", Act.updateRPC "c1" "paused",
       Act.appendWaiter "c1" StatePause, Act.unlockAct "c1", Act.waitChan "c1"] ∧
    (Pause envC4 sC4 "c1").2.2 = none ∧
    before (Pause envC4 sC4 "c1").2.1
      (Act.appendWaiter "c1" StatePause) (Act.unlockAct "c1") ∧
    ¬ before (Pause envC4 sC4 "c1").2.1
      (Act.unlockAct "c1") (Act.appendWaiter "c1" StatePause) := by
  have htr : (Pause envC4 sC4 "c1").2.1 =
      [Act.lockAct "c1", Act.updateRPC "c1" "paused",
       Act.appendWaiter "c1" StatePause, Act.unlockAct "c1", Act.waitChan "c1"] := by
    decide
  refine ⟨htr, by decide, ⟨2, 3, by omega, by rw [htr]; rfl, by rw [htr]; rfl⟩, ?_⟩
  rintro ⟨i, j, hij, hi, hj⟩
  rw [htr] at hi hj
  have hilen : i < 5 := by
    rcases List.get?_eq_some.mp hi with ⟨h, _⟩
    simpa using h
  have hjlen : j < 5 := by
    rcases List.get?_eq_some.mp hj with ⟨h, _⟩
    simpa using h
  interval_cases i <;> interval_cases j <;> simp_all

/-- Claim C4 (amended): when the `UpdateContainer` RPC fails, `setState`
releases the per-ID lock and returns the RPC error without appending any
waiter to the `PauseMonitor`; when the RPC succeeds, the waiter is appended
after the RPC but while the per-ID lock is STILL HELD, the lock is released
next, and only then does the caller block on the channel. -/
theorem setState_waiter_discipline (env : Env) (s : ClientState) (id state : String)
    (c : Container) (hreg : s.containers id = some c) (hpid : c.systemPid ≠ 0) :
    (∀ e, env.updateContainer id (if state = StatePause then "paused" else "running") = some e →
        setState env s id state =
          (s, [Act.lockAct id,
               Act.updateRPC id (if state = StatePause then "paused" else "running"),
               Act.unlockAct id], some e)) ∧
    (env.updateContainer id (if state = StatePause then "paused" else "running") = none →
        setState env s id state =
          ({ s with containers := fun i =>
               if i = id then some { c with pauseMonitor := c.pauseMonitor ++ [state] }
               else s.containers i },
           [Act.lockAct id,
            Act.updateRPC id (if state = StatePause then "paused" else "running"),
            Act.appendWaiter id state, Act.unlockAct id, Act.waitChan id], none)) := by
  constructor
  · intro e he
    simp [setState, hreg, hpid, he]
  · intro he
    simp [setState, hreg, hpid, he]

/-- Environment for the C4 witness: the `UpdateContainer` RPC fails. -/
def envC4b : Env :=
  { stateRPC := fun _ => Except.error "unreachable"
    updateContainer := fun _ _ => some "rpc: daemon unavailable"
    openFifos := fun _ => none
    attachStreams := fun _ => none
    stateChanged := fun _ _ => none
    base := fun p => p }

/-- Witness for the amended C4 at container "c1": a failed RPC yields the
lock/RPC/unlock trace with the error and no waiter. -/
theorem setState_waiter_discipline_witness :
    sC4.containers "c1" = some cC4 ∧ cC4.systemPid ≠ 0 ∧
    envC4b.updateContainer "c1" "paused" = some "rpc: daemon unavailable" ∧
    setState envC4b sC4 "c1" StatePause =
      (sC4, [Act.lockAct "c1", Act.updateRPC "c1" "paused", Act.unlockAct "c1"],
       some "rpc: daemon unavailable") := by
  have h := (setState_waiter_discipline envC4b sC4 "c1" StatePause cC4 (by rfl)
    (by decide)).1 "rpc: daemon unavailable" (by rfl)
  refine ⟨rfl, by decide, rfl, ?_⟩
  rw [h]
  rfl

/-- Claim C5: a restore of an ID that is already registered in-process fails
with the "aleady active" error and leaves the client state — in particular
the existing Registry entry — completely untouched (the compensating delete
of `client.restore` is only armed after this check, so it does not fire);
the surrounding `Restore` keeps the existing registration and swallows the
error. -/
theorem restore_already_active (env : Env) (s : ClientState) (id : String)
    (c0 : Container) (cont : ContainerdContainer) (l : List ContainerdContainer)
    (hreg : s.containers id = some c0) (hid : cont.Id = id)
    (hrpc : env.stateRPC id = Except.ok l) (hfind : findContainer id l = some cont) :
    restore env s cont =
      (s, [Act.lockAct id,
           Act.logDebugAct ("restore container " ++ id ++ " state " ++ cont.Status),
           Act.unlockAct id],
       some ("container " ++ id ++ " is aleady active")) ∧
    (Restore env s id).1.containers id = some c0 ∧
    (Restore env s id).2.2 = none := by
  subst hid
  have hres : restore env s cont =
      (s, [Act.lockAct cont.Id,
           Act.logDebugAct ("restore container " ++ cont.Id ++ " state " ++ cont.Status),
           Act.unlockAct cont.Id],
       some ("container " ++ cont.Id ++ " is aleady active")) := by
    simp [restore, hreg]
  refine ⟨hres, ?_, ?_⟩ <;>
    simp [Restore, getContainerdContainer, hrpc, hfind, hres, hreg]

/-- Environment for the C5 witness: the daemon reports container "c1". -/
def envC5 : Env :=
  { stateRPC := fun i =>
      if i = "c1" then
        Except.ok [{ Id := "c1", BundlePath := "/b/c1", Status := "running",
                     Pids := [42], sysPid := 42 }]
      else Except.error "not found"
    updateContainer := fun _ _ => none
    openFifos := fun _ => none
    attachStreams := fun _ => none
    stateChanged := fun _ _ => none
    base := fun _ => "c1" }

/-- The live registration that the second restore must not disturb. -/
def cC5 : Container := { id := "c1", dir := "/b/c1", systemPid := 42 }

/-- Client state for the C5 witness: "c1" is already registered. -/
def sC5 : ClientState :=
  { containers := fun i => if i = "c1" then some cC5 else none
    pastEvents := fun _ => none }

/-- The daemon-side report of "c1" used by the C5 witness. -/
def contC5 : ContainerdContainer :=
  { Id := "c1", BundlePath := "/b/c1", Status := "running", Pids := [42], sysPid := 42 }

/-- Witness for C5 at the concrete container "c1". -/
theorem restore_already_active_witness :
    sC5.containers "c1" = some cC5 ∧
    envC5.stateRPC "c1" = Except.ok [contC5] ∧ findContainer "c1" [contC5] = some contC5 ∧
    (restore envC5 sC5 contC5).2.2 = some "container c1 is aleady active" ∧
    (Restore envC5 sC5 "c1").1.containers "c1" = some cC5 := by
  have h := restore_already_active envC5 sC5 "c1" cC5 contC5 [contC5]
    (by rfl) (by rfl) (by rfl) (by rfl)
  refine ⟨rfl, rfl, rfl, ?_, h.2.1⟩
  rw [h.1]
  rfl

/-- Claim C6: if a restore of an unregistered ID fails at any step after
construction (fifos, AttachStreams, or either Backend `StateChanged`
notification), the compensating delete leaves the Registry with no entry for
that ID, and the whole registry is as it was before the call: no partial
registration survives failure.  The hypothesis `hbase` is the engine
invariant that the bundle directory of a container is named after its ID,
so the registration key `filepath.Base(BundlePath)` is the ID itself. -/
theorem restore_failure_no_partial_registration (env : Env) (s : ClientState)
    (cont : ContainerdContainer) (e : String)
    (hnew : s.containers cont.Id = none)
    (hbase : env.base cont.BundlePath = cont.Id)
    (hfail : (restore env s cont).2.2 = some e) :
    (restore env s cont).1.containers cont.Id = none ∧
    (∀ i, (restore env s cont).1.containers i = s.containers i) ∧
    Act.deleteAct cont.Id ∈ (restore env s cont).2.1 := by
  have hdel : ∀ i, (((s.appendContainer
      { id := env.base cont.BundlePath, dir := cont.BundlePath,
        systemPid := cont.sysPid, pauseMonitor := [] }).deleteContainer cont.Id).containers i)
      = s.containers i := by
    intro i
    by_cases hi : i = cont.Id
    · subst hi
      simp [ClientState.deleteContainer, hnew]
    · simp [ClientState.deleteContainer, ClientState.appendContainer, hi, hbase]
  have hdel0 : ∀ i, ((s.deleteContainer cont.Id).containers i) = s.containers i := by
    intro i
    by_cases hi : i = cont.Id
    · subst hi
      simp [ClientState.deleteContainer, hnew]
    · simp [ClientState.deleteContainer, hi]
  cases hof : env.openFifos (env.base cont.BundlePath) with
  | some e2 =>
      have hres : (restore env s cont).1 = s.deleteContainer cont.Id ∧
          Act.deleteAct cont.Id ∈ (restore env s cont).2.1 := by
        constructor <;> simp [restore, hnew, hof]
      refine ⟨?_, ?_, hres.2⟩
      · rw [hres.1, hdel0 cont.Id, hnew]
      · intro i
        rw [hres.1]
        exact hdel0 i
  | none =>
  cases hat : env.attachStreams cont.Id with
  | some e2 =>
      have hres : (restore env s cont).1 = s.deleteContainer cont.Id ∧
          Act.deleteAct cont.Id ∈ (restore env s cont).2.1 := by
        constructor <;> simp [restore, hnew, hof, hat]
      refine ⟨?_, ?_, hres.2⟩
      · rw [hres.1, hdel0 cont.Id, hnew]
      · intro i
        rw [hres.1]
        exact hdel0 i
  | none =>
  cases hsc : env.stateChanged cont.Id { State := StateRestore, Pid := cont.sysPid } with
  | some e2 =>
      have hres : (restore env s cont).1 = (s.appendContainer
          { id := env.base cont.BundlePath, dir := cont.BundlePath,
            systemPid := cont.sysPid, pauseMonitor := [] }).deleteContainer cont.Id ∧
          Act.deleteAct cont.Id ∈ (restore env s cont).2.1 := by
        constructor <;> simp [restore, hnew, hof, hat, hsc]
      refine ⟨?_, ?_, hres.2⟩
      · rw [hres.1, hdel cont.Id, hnew]
      · intro i
        rw [hres.1]
        exact hdel i
  | none =>
  cases hev : s.pastEvents cont.Id with
  | none =>
      exfalso
      simp [restore, hnew, hof, hat, hsc, hev, ClientState.appendContainer] at hfail
  | some event =>
      by_cases hty : event.typ = StatePause ∨ event.typ = StateResume
      · cases hsc2 : env.stateChanged cont.Id { State := event.typ, Pid := cont.sysPid } with
        | some e2 =>
            have hres : (restore env s cont).1 = (s.appendContainer
                { id := env.base cont.BundlePath, dir := cont.BundlePath,
                  systemPid := cont.sysPid, pauseMonitor := [] }).deleteContainer cont.Id ∧
                Act.deleteAct cont.Id ∈ (restore env s cont).2.1 := by
              constructor <;> simp [restore, hnew, hof, hat, hsc, hev, hty, hsc2]
            refine ⟨?_, ?_, hres.2⟩
            · rw [hres.1, hdel cont.Id, hnew]
            · intro i
              rw [hres.1]
              exact hdel i
        | none =>
            exfalso
            simp [restore, hnew, hof, hat, hsc, hev, hty, hsc2,
              ClientState.appendContainer] at hfail
      · exfalso
        simp [restore, hnew, hof, hat, hsc, hev, hty, ClientState.appendContainer] at hfail

/-- Environment for the C6 witness: `AttachStreams` fails. -/
def envC6 : Env :=
  { stateRPC := fun _ => Except.error "unreachable"
    updateContainer := fun _ _ => none
    openFifos := fun _ => none
    attachStreams := fun _ => some "attach failed"
    stateChanged := fun _ _ => none
    base := fun _ => "c1" }

/-- Client state for the C6 witness: nothing registered. -/
def sC6 : ClientState :=
  { containers := fun _ => none, pastEvents := fun _ => none }

/-- The daemon-side report of "c1" used by the C6 witness. -/
def contC6 : ContainerdContainer :=
  { Id := "c1", BundlePath := "/b/c1", Status := "running", Pids := [42], sysPid := 42 }

/-- Witness for C6: a restore that fails at `AttachStreams` leaves no
registration for "c1". -/
theorem restore_failure_no_partial_registration_witness :
    sC6.containers "c1" = none ∧ envC6.base "/b/c1" = "c1" ∧
    (restore envC6 sC6 contC6).2.2 = some "attach failed" ∧
    (restore envC6 sC6 contC6).1.containers "c1" = none ∧
    Act.deleteAct "c1" ∈ (restore envC6 sC6 contC6).2.1 := by
  have h := restore_failure_no_partial_registration envC6 sC6 contC6 "attach failed"
    (by rfl) (by rfl) (by rfl)
  exact ⟨rfl, rfl, rfl, h.1, h.2.2⟩

/-- On the registered-upstream restore path, once the fifos are opened and
`AttachStreams` has succeeded, the trace starts with the fixed prefix
lock / debug-log / fifos / attach / register / Restored-notification, in
that order, whatever the later Backend results and backlog contents are. -/
theorem restore_live_trace_prefix (env : Env) (s : ClientState)
    (cont : ContainerdContainer)
    (hnew : s.containers cont.Id = none)
    (hof : env.openFifos (env.base cont.BundlePath) = none)
    (hat : env.attachStreams cont.Id = none) :
    ∃ rest, (restore env s cont).2.1 =
      [Act.lockAct cont.Id,
       Act.logDebugAct ("restore container " ++ cont.Id ++ " state " ++ cont.Status),
       Act.openFifosCall (env.base cont.BundlePath),
       Act.attachCall cont.Id,
       Act.register (env.base cont.BundlePath),
       Act.notifyCall cont.Id { State := StateRestore, Pid := cont.sysPid }] ++ rest := by
  cases hsc : env.stateChanged cont.Id { State := StateRestore, Pid := cont.sysPid } with
  | some e2 =>
      exact ⟨[Act.deleteAct cont.Id, Act.unlockAct cont.Id],
        by simp [restore, hnew, hof, hat, hsc]⟩
  | none =>
  cases hev : s.pastEvents cont.Id with
  | none =>
      exact ⟨[Act.unlockAct cont.Id], by simp [restore, hnew, hof, hat, hsc, hev]⟩
  | some event =>
      by_cases hty : event.typ = StatePause ∨ event.typ = StateResume
      · cases hsc2 : env.stateChanged cont.Id { State := event.typ, Pid := cont.sysPid } with
        | some e2 =>
            exact ⟨[Act.notifyCall cont.Id { State := event.typ, Pid := cont.sysPid },
              Act.deleteAct cont.Id, Act.unlockAct cont.Id],
              by simp [restore, hnew, hof, hat, hsc, hev, hty, hsc2]⟩
        | none =>
            exact ⟨[Act.notifyCall cont.Id { State := event.typ, Pid := cont.sysPid },
              Act.unlockAct cont.Id],
              by simp [restore, hnew, hof, hat, hsc, hev, hty, hsc2]⟩
      · exact ⟨[Act.logWarnAct "unexpected backlog event", Act.unlockAct cont.Id],
          by simp [restore, hnew, hof, hat, hsc, hev, hty]⟩

/-- Claim C8: in every restore of a daemon-known, not-yet-registered
container, (i) the container is registered or the Restored notification
emitted only if both the fifo opening and `AttachStreams` succeeded;
(ii) when they succeed, the `AttachStreams` call occurs strictly before the
registration and strictly before the Restored notification in the trace;
(iii) when `AttachStreams` fails, the container is never registered and no
notification at all is emitted. -/
theorem restore_attach_before_live (env : Env) (s : ClientState)
    (cont : ContainerdContainer) (hnew : s.containers cont.Id = none) :
    (Act.register (env.base cont.BundlePath) ∈ (restore env s cont).2.1 ∨
     Act.notifyCall cont.Id { State := StateRestore, Pid := cont.sysPid }
       ∈ (restore env s cont).2.1 →
       env.openFifos (env.base cont.BundlePath) = none ∧
       env.attachStreams cont.Id = none) ∧
    (env.openFifos (env.base cont.BundlePath) = none →
     env.attachStreams cont.Id = none →
       before (restore env s cont).2.1 (Act.attachCall cont.Id)
         (Act.register (env.base cont.BundlePath)) ∧
       before (restore env s cont).2.1 (Act.attachCall cont.Id)
         (Act.notifyCall cont.Id { State := StateRestore, Pid := cont.sysPid })) ∧
    (∀ e, env.attachStreams cont.Id = some e →
       Act.register (env.base cont.BundlePath) ∉ (restore env s cont).2.1 ∧
       (∀ i info, Act.notifyCall i info ∉ (restore env s cont).2.1)) := by
  refine ⟨?_, ?_, ?_⟩
  · intro hmem
    by_cases hof : env.openFifos (env.base cont.BundlePath) = none
    · by_cases hat : env.attachStreams cont.Id = none
      · exact ⟨hof, hat⟩
      · exfalso
        rcases Option.ne_none_iff_exists.mp hat with ⟨e, he⟩
        have htr : (restore env s cont).2.1 =
            [Act.lockAct cont.Id,
             Act.logDebugAct ("restore container " ++ cont.Id ++ " state " ++ cont.Status),
             Act.openFifosCall (env.base cont.BundlePath), Act.attachCall cont.Id,
             Act.deleteAct cont.Id, Act.unlockAct cont.Id] := by
          simp [restore, hnew, hof, he.symm]
        rw [htr] at hmem
        rcases hmem with hmem | hmem <;> simp at hmem
    · exfalso
      rcases Option.ne_none_iff_exists.mp hof with ⟨e, he⟩
      have htr : (restore env s cont).2.1 =
          [Act.lockAct cont.Id,
           Act.logDebugAct ("restore container " ++ cont.Id ++ " state " ++ cont.Status),
           Act.openFifosCall (env.base cont.BundlePath),
           Act.deleteAct cont.Id, Act.unlockAct cont.Id] := by
        simp [restore, hnew, he.symm]
      rw [htr] at hmem
      rcases hmem with hmem | hmem <;> simp at hmem
  · intro hof hat
    rcases restore_live_trace_prefix env s cont hnew hof hat with ⟨rest, htr⟩
    constructor
    · refine ⟨3, 4, by omega, ?_, ?_⟩ <;> rw [htr] <;>
        rw [List.get?_append (by simp)] <;> rfl
    · refine ⟨3, 5, by omega, ?_, ?_⟩ <;> rw [htr] <;>
        rw [List.get?_append (by simp)] <;> rfl
  · intro e hat
    by_cases hof : env.openFifos (env.base cont.BundlePath) = none
    · have htr : (restore env s cont).2.1 =
          [Act.lockAct cont.Id,
           Act.logDebugAct ("restore container " ++ cont.Id ++ " state " ++ cont.Status),
           Act.openFifosCall (env.base cont.BundlePath), Act.attachCall cont.Id,
           Act.deleteAct cont.Id, Act.unlockAct cont.Id] := by
        simp [restore, hnew, hof, hat]
      rw [htr]
      constructor
      · simp
      · intro i info
        simp
    · rcases Option.ne_none_iff_exists.mp hof with ⟨e2, he⟩
      have htr : (restore env s cont).2.1 =
          [Act.lockAct cont.Id,
           Act.logDebugAct ("restore container " ++ cont.Id ++ " state " ++ cont.Status),
           Act.openFifosCall (env.base cont.BundlePath),
           Act.deleteAct cont.Id, Act.unlockAct cont.Id] := by
        simp [restore, hnew, he.symm]
      rw [htr]
      constructor
      · simp
      · intro i info
        simp

/-- Environment for the C8 witness: everything succeeds. -/
def envC8 : Env :=
  { stateRPC := fun _ => Except.error "unreachable"
    updateContainer := fun _ _ => none
    openFifos := fun _ => none
    attachStreams := fun _ => none
    stateChanged := fun _ _ => none
    base := fun _ => "c1" }

/-- Client state for the C8 witness: nothing registered. -/
def sC8 : ClientState :=
  { containers := fun _ => none, pastEvents := fun _ => none }

/-- The daemon-side report of "c1" used by the C8 witness. -/
def contC8 : ContainerdContainer :=
  { Id := "c1", BundlePath := "/b/c1", Status := "running", Pids := [42], sysPid := 42 }

/-- Witness for C8: with every step succeeding, the attach precedes the
registration in the concrete trace. -/
theorem restore_attach_before_live_witness :
    sC8.containers "c1" = none ∧
    before (restore envC8 sC8 contC8).2.1 (Act.attachCall "c1") (Act.register "c1") ∧
    before (restore envC8 sC8 contC8).2.1 (Act.attachCall "c1")
      (Act.notifyCall "c1" { State := StateRestore, Pid := 42 }) := by
  have h := (restore_attach_before_live envC8 sC8 contC8 (by rfl)).2.1 (by rfl) (by rfl)
  exact ⟨rfl, h.1, h.2⟩

/-- Environment for the C1 counterexample: the daemon reports "c1" and every
external call succeeds. -/
def envC1 : Env :=
  { stateRPC := fun i =>
      if i = "c1" then
        Except.ok [{ Id := "c1", BundlePath := "/b/c1", Status := "paused",
                     Pids := [42], sysPid := 42 }]
      else Except.error "not found"
    updateContainer := fun _ _ => none
    openFifos := fun _ => none
    attachStreams := fun _ => none
    stateChanged := fun _ _ => none
    base := fun _ => "c1" }

/-- The pending backlog pause event of the C1 counterexample. -/
def evC1 : Event := { typ := StatePause, Status := 0 }

/-- Client state for the C1 counterexample: "c1" unregistered but with a
pending backlog event. -/
def sC1 : ClientState :=
  { containers := fun _ => none
    pastEvents := fun i => if i = "c1" then some evC1 else none }

/-- Claim C1 counterexample: `Restore` of "c1" succeeds through the
registered-upstream path — the full trace shows registration, the Restored
notification and the forwarded pause notification, and no error is logged —
yet afterwards the Backlog STILL contains the entry for "c1": the
registered-upstream restore path reads the backlog entry without removing
it, refuting "a successful Restore of that ID consumes (removes) the
backlog entry". -/
theorem restore_backlog_not_consumed_cex :
    (Restore envC1 sC1 "c1").2.1 =
      [Act.stateRPCCall "c1", Act.lockAct "c1",
       Act.logDebugAct "restore container c1 state paused",
       Act.openFifosCall "c1", Act.attachCall "c1", Act.register "c1",
       Act.notifyCall "c1" { State := StateRestore, Pid := 42 },
       Act.notifyCall "c1" { State := StatePause, Pid := 42 },
       Act.unlockAct "c1"] ∧
    (Restore envC1 sC1 "c1").2.2 = none ∧
    (Restore envC1 sC1 "c1").1.containers "c1" =
      some { id := "c1", dir := "/b/c1", systemPid := 42, pauseMonitor := [] } ∧
    (Restore envC1 sC1 "c1").1.pastEvents "c1" = some evC1 := by
  refine ⟨by decide, by decide, by decide, by decide⟩

/-- Claim C1 (amended): the registered-upstream restore path never writes
the Backlog — the entry for the ID is read but left in place (entries are
removed only by the daemon-not-found branch of `Restore`); if the pending
event is a pause or resume event, the corresponding State-Changed
notification is forwarded to the Backend; an event of any other type is
logged as unexpected and not acted upon (the only notification emitted for
it is the Restored one). -/
theorem restore_backlog_read_not_removed (env : Env) (s : ClientState)
    (cont : ContainerdContainer) (event : Event)
    (hnew : s.containers cont.Id = none)
    (hev : s.pastEvents cont.Id = some event)
    (hof : env.openFifos (env.base cont.BundlePath) = none)
    (hat : env.attachStreams cont.Id = none)
    (hsc : env.stateChanged cont.Id { State := StateRestore, Pid := cont.sysPid } = none) :
    (restore env s cont).1.pastEvents = s.pastEvents ∧
    ((event.typ = StatePause ∨ event.typ = StateResume) →
      Act.notifyCall cont.Id { State := event.typ, Pid := cont.sysPid }
        ∈ (restore env s cont).2.1) ∧
    (¬(event.typ = StatePause ∨ event.typ = StateResume) →
      Act.logWarnAct "unexpected backlog event" ∈ (restore env s cont).2.1 ∧
      (restore env s cont).2.2 = none ∧
      (∀ i info, Act.notifyCall i info ∈ (restore env s cont).2.1 →
        i = cont.Id ∧ info = { State := StateRestore, Pid := cont.sysPid })) := by
  refine ⟨?_, ?_, ?_⟩
  · by_cases hty : event.typ = StatePause ∨ event.typ = StateResume
    · cases hsc2 : env.stateChanged cont.Id { State := event.typ, Pid := cont.sysPid } with
      | some e2 => simp [restore, hnew, hof, hat, hsc, hev, hty, hsc2]
      | none => simp [restore, hnew, hof, hat, hsc, hev, hty, hsc2]
    · simp [restore, hnew, hof, hat, hsc, hev, hty]
  · intro hty
    cases hsc2 : env.stateChanged cont.Id { State := event.typ, Pid := cont.sysPid } with
    | some e2 => simp [restore, hnew, hof, hat, hsc, hev, hty, hsc2]
    | none => simp [restore, hnew, hof, hat, hsc, hev, hty, hsc2]
  · intro hty
    have htr : (restore env s cont).2.1 =
        [Act.lockAct cont.Id,
         Act.logDebugAct ("restore container " ++ cont.Id ++ " state " ++ cont.Status),
         Act.openFifosCall (env.base cont.BundlePath), Act.attachCall cont.Id,
         Act.register (env.base cont.BundlePath),
         Act.notifyCall cont.Id { State := StateRestore, Pid := cont.sysPid },
         Act.logWarnAct "unexpected backlog event", Act.unlockAct cont.Id] := by
      simp [restore, hnew, hof, hat, hsc, hev, hty]
    refine ⟨by rw [htr]; simp, by simp [restore, hnew, hof, hat, hsc, hev, hty], ?_⟩
    intro i info hmem
    rw [htr] at hmem
    simp at hmem
    exact ⟨hmem.1, hmem.2⟩

/-- Environment for the amended-C1 witness: daemon knows "c1", the backlog
holds a resume event, every call succeeds. -/
def envC1b : Env :=
  { stateRPC := fun _ => Except.error "unreachable"
    updateContainer := fun _ _ => none
    openFifos := fun _ => none
    attachStreams := fun _ => none
    stateChanged := fun _ _ => none
    base := fun _ => "c1" }

/-- The backlog resume event of the amended-C1 witness. -/
def evC1b : Event := { typ := StateResume, Status := 0 }

/-- Client state for the amended-C1 witness. -/
def sC1b : ClientState :=
  { containers := fun _ => none
    pastEvents := fun i => if i = "c1" then some evC1b else none }

/-- The daemon-side report of "c1" used by the amended-C1 witness. -/
def contC1b : ContainerdContainer :=
  { Id := "c1", BundlePath := "/b/c1", Status := "paused", Pids := [42], sysPid := 42 }

/-- Witness for the amended C1: the resume notification is forwarded and the
backlog is untouched. -/
theorem restore_backlog_read_not_removed_witness :
    sC1b.containers "c1" = none ∧ sC1b.pastEvents "c1" = some evC1b ∧
    (restore envC1b sC1b contC1b).1.pastEvents = sC1b.pastEvents ∧
    Act.notifyCall "c1" { State := StateResume, Pid := 42 }
      ∈ (restore envC1b sC1b contC1b).2.1 := by
  have h := restore_backlog_read_not_removed envC1b sC1b contC1b evC1b
    (by rfl) (by rfl) (by rfl) (by rfl) (by rfl)
  exact ⟨rfl, rfl, h.1, h.2.1 (by decide)⟩

/-- Environment for the C2 counterexample: the daemon lookup fails and the
Backend `StateChanged` call fails too. -/
def envC2 : Env :=
  { stateRPC := fun _ => Except.error "connection refused"
    updateContainer := fun _ _ => none
    openFifos := fun _ => none
    attachStreams := fun _ => none
    stateChanged := fun _ _ => some "backend unavailable"
    base := fun p => p }

/-- Client state for the C2 counterexample. -/
def sC2 : ClientState :=
  { containers := fun _ => none, pastEvents := fun _ => none }

/-- Claim C2 counterexample: on the daemon-not-found path, `Restore` returns
the Backend `StateChanged` error to its caller instead of converting it to
a logged error, refuting "Restore never propagates an error". -/
theorem Restore_propagates_backend_error_cex :
    (Restore envC2 sC2 "c2").2.2 = some "backend unavailable" := by
  decide

/-- Claim C2 (amended): when the daemon lookup succeeds, `Restore` converts
every failure of the internal restore into a logged error and returns
success; but on the daemon-not-found path the error (if any) of the Backend
`StateChanged` exit notification is returned to the caller. -/
theorem Restore_error_swallowing_policy (env : Env) (s : ClientState) (id : String) :
    (∀ cont, (getContainerdContainer env id).2 = Except.ok cont →
        (Restore env s id).2.2 = none) ∧
    (∀ cont msg, (getContainerdContainer env id).2 = Except.ok cont →
        (restore env s cont).2.2 = some msg →
        Act.logErrorAct ("error restoring " ++ id ++ ": " ++ msg)
          ∈ (Restore env s id).2.1) ∧
    (∀ m, (getContainerdContainer env id).2 = Except.error m →
        (Restore env s id).2.2 =
          env.stateChanged id { State := StateExit, ExitCode := backlogExitCode s id }) := by
  refine ⟨?_, ?_, ?_⟩
  · intro cont hok
    cases hrr : (restore env s cont).2.2 with
    | some msg => simp [Restore, hok, hrr]
    | none => simp [Restore, hok, hrr]
  · intro cont msg hok hrr
    simp [Restore, hok, hrr]
  · intro m herr
    cases hev : s.pastEvents id with
    | some event => simp [Restore, herr, hev, backlogExitCode]
    | none => simp [Restore, herr, hev, backlogExitCode]

/-- Environment for the amended-C2 witness: the lookup succeeds but the
restore fails at `AttachStreams`. -/
def envC2b : Env :=
  { stateRPC := fun _ =>
      Except.ok [{ Id := "c1", BundlePath := "/b/c1", Status := "running",
                   Pids := [42], sysPid := 42 }]
    updateContainer := fun _ _ => none
    openFifos := fun _ => none
    attachStreams := fun _ => some "attach failed"
    stateChanged := fun _ _ => none
    base := fun _ => "c1" }

/-- The daemon-side report of "c1" used by the amended-C2 witness. -/
def contC2b : ContainerdContainer :=
  { Id := "c1", BundlePath := "/b/c1", Status := "running", Pids := [42], sysPid := 42 }

/-- Witness for the amended C2: the attach failure is logged, not returned. -/
theorem Restore_error_swallowing_policy_witness :
    (getContainerdContainer envC2b "c1").2 = Except.ok contC2b ∧
    (restore envC2b sC2 contC2b).2.2 = some "attach failed" ∧
    (Restore envC2b sC2 "c1").2.2 = none ∧
    Act.logErrorAct "error restoring c1: attach failed" ∈ (Restore envC2b sC2 "c1").2.1 := by
  have h := Restore_error_swallowing_policy envC2b sC2 "c1"
  refine ⟨by rfl, by rfl, h.1 contC2b (by rfl), ?_⟩
  have h2 := h.2.1 contC2b "attach failed" (by rfl) (by rfl)
  exact h2

/-- Claim C7: on the daemon-not-found path, `Restore` consumes the backlog
exit event for the ID — removing it from the Backlog — and notifies the
Backend of an Exit state carrying exactly its status; when no backlog entry
exists the exit code defaults to 0. -/
theorem Restore_notfound_drains_exit_backlog (env : Env) (s : ClientState)
    (id m : String)
    (hrpc : (getContainerdContainer env id).2 = Except.error m) :
    (∀ event, s.pastEvents id = some event → event.typ = StateExit →
        (Restore env s id).1.pastEvents id = none ∧
        Act.notifyCall id { State := StateExit, ExitCode := event.Status }
          ∈ (Restore env s id).2.1) ∧
    (s.pastEvents id = none →
        Act.notifyCall id { State := StateExit, ExitCode := 0 }
          ∈ (Restore env s id).2.1) := by
  constructor
  · intro event hev _
    constructor
    · simp [Restore, hrpc, hev, ClientState.deletePastEvent]
    · simp [Restore, hrpc, hev, backlogExitCode]
  · intro hev
    simp [Restore, hrpc, hev, backlogExitCode]

/-- Environment for the C7 witness: the daemon has no record of "c2". -/
def envC7 : Env :=
  { stateRPC := fun _ => Except.ok []
    updateContainer := fun _ _ => none
    openFifos := fun _ => none
    attachStreams := fun _ => none
    stateChanged := fun _ _ => none
    base := fun p => p }

/-- The backlog exit event (status 7) of the C7 witness. -/
def evC7 : Event := { typ := StateExit, Status := 7 }

/-- Client state for the C7 witness: the Backlog holds the exit event of
"c2". -/
def sC7 : ClientState :=
  { containers := fun _ => none
    pastEvents := fun i => if i = "c2" then some evC7 else none }

/-- Witness for C7, the spec's scenario 6: `Restore("c2")` yields an Exit
notification with code 7 and the Backlog no longer contains "c2". -/
theorem Restore_notfound_drains_exit_backlog_witness :
    (getContainerdContainer envC7 "c2").2 = Except.error "invalid state response" ∧
    sC7.pastEvents "c2" = some evC7 ∧ evC7.typ = StateExit ∧
    (Restore envC7 sC7 "c2").1.pastEvents "c2" = none ∧
    Act.notifyCall "c2" { State := StateExit, ExitCode := 7 } ∈ (Restore envC7 sC7 "c2").2.1 := by
  have h := (Restore_notfound_drains_exit_backlog envC7 sC7 "c2" "invalid state response"
    (by rfl)).1 evC7 (by rfl) (by rfl)
  exact ⟨rfl, rfl, rfl, h.1, h.2⟩

/-- Claim C9: every failure of the daemon `State` lookup — a transport-level
RPC error as well as a reply that contains no container with the requested
ID — sends `Restore` down the not-found branch, which emits the Exit
StateChanged notification (with the drained backlog code). -/
theorem Restore_exit_on_any_lookup_error (env : Env) (s : ClientState) (id : String) :
    (∀ m, env.stateRPC id = Except.error m →
        Act.notifyCall id { State := StateExit, ExitCode := backlogExitCode s id }
          ∈ (Restore env s id).2.1 ∧ (Restore env s id).1.pastEvents id = none) ∧
    (∀ l, env.stateRPC id = Except.ok l → findContainer id l = none →
        Act.notifyCall id { State := StateExit, ExitCode := backlogExitCode s id }
          ∈ (Restore env s id).2.1 ∧ (Restore env s id).1.pastEvents id = none) := by
  constructor
  · intro m hm
    cases hev : s.pastEvents id with
    | some event =>
        constructor <;>
          simp [Restore, getContainerdContainer, hm, hev, backlogExitCode,
            ClientState.deletePastEvent]
    | none =>
        constructor <;>
          simp [Restore, getContainerdContainer, hm, hev, backlogExitCode]
  · intro l hl hfind
    cases hev : s.pastEvents id with
    | some event =>
        constructor <;>
          simp [Restore, getContainerdContainer, hl, hfind, hev, backlogExitCode,
            ClientState.deletePastEvent]
    | none =>
        constructor <;>
          simp [Restore, getContainerdContainer, hl, hfind, hev, backlogExitCode]

/-- An unrelated container returned by the daemon in the C9 witness. -/
def contC9 : ContainerdContainer :=
  { Id := "other", BundlePath := "/b/other", Status := "running", Pids := [], sysPid := 1 }

/-- Environment for the C9 witness: the lookup of "c1" fails at the
transport and the reply for every other ID contains only the unrelated
container. -/
def envC9 : Env :=
  { stateRPC := fun i =>
      if i = "c1" then Except.error "connection refused" else Except.ok [contC9]
    updateContainer := fun _ _ => none
    openFifos := fun _ => none
    attachStreams := fun _ => none
    stateChanged := fun _ _ => none
    base := fun p => p }

/-- Client state for the C9 witness. -/
def sC9 : ClientState :=
  { containers := fun _ => none, pastEvents := fun _ => none }

/-- Witness for C9 at both kinds of lookup failure. -/
theorem Restore_exit_on_any_lookup_error_witness :
    envC9.stateRPC "c1" = Except.error "connection refused" ∧
    Act.notifyCall "c1" { State := StateExit, ExitCode := 0 } ∈ (Restore envC9 sC9 "c1").2.1 ∧
    findContainer "c2" [contC9] = none ∧
    Act.notifyCall "c2" { State := StateExit, ExitCode := 0 } ∈ (Restore envC9 sC9 "c2").2.1 := by
  have h1 := (Restore_exit_on_any_lookup_error envC9 sC9 "c1").1 "connection refused" (by rfl)
  have h2 := (Restore_exit_on_any_lookup_error envC9 sC9 "c2").2 [contC9] (by rfl) (by rfl)
  exact ⟨rfl, h1.1, rfl, h2.1⟩

/-- Claim C10: when the daemon reply contains a container with the requested
ID, `GetPidsForContainer` returns the list of its reported pids converted
to integers, of the same length and in the same order; when the reply
contains no such container it fails with "invalid state response". -/
theorem GetPidsForContainer_spec (env : Env) (id : String) :
    (∀ l cont, env.stateRPC id = Except.ok l → findContainer id l = some cont →
        (GetPidsForContainer env id).2 =
          Except.ok (cont.Pids.map (fun p => Int.ofNat p)) ∧
        (∀ pids, (GetPidsForContainer env id).2 = Except.ok pids →
          pids.length = cont.Pids.length ∧
          ∀ i, (h1 : i < pids.length) → (h2 : i < cont.Pids.length) →
            pids.get ⟨i, h1⟩ = Int.ofNat (cont.Pids.get ⟨i, h2⟩))) ∧
    (∀ l, env.stateRPC id = Except.ok l → findContainer id l = none →
        (GetPidsForContainer env id).2 = Except.error "invalid state response") := by
  constructor
  · intro l cont hl hfind
    have hres : (GetPidsForContainer env id).2 =
        Except.ok (cont.Pids.map (fun p => Int.ofNat p)) := by
      simp [GetPidsForContainer, getContainerdContainer, hl, hfind]
    refine ⟨hres, ?_⟩
    intro pids hpids
    rw [hres] at hpids
    have hpids2 : pids = cont.Pids.map (fun p => Int.ofNat p) := by
      cases hpids
      rfl
    subst hpids2
    refine ⟨by simp, ?_⟩
    intro i h1 h2
    simp [List.get_eq_getElem, List.getElem_map]
  · intro l hl hfind
    simp [GetPidsForContainer, getContainerdContainer, hl, hfind]

/-- Environment for the C10 witness: the daemon reports "c1" with pids
10 and 11, and an empty reply for every other ID. -/
def envC10 : Env :=
  { stateRPC := fun i =>
      if i = "c1" then
        Except.ok [{ Id := "c1", BundlePath := "/b/c1", Status := "running",
                     Pids := [10, 11], sysPid := 10 }]
      else Except.ok []
    updateContainer := fun _ _ => none
    openFifos := fun _ => none
    attachStreams := fun _ => none
    stateChanged := fun _ _ => none
    base := fun p => p }

/-- The daemon-side report of "c1" used by the C10 witness. -/
def contC10 : ContainerdContainer :=
  { Id := "c1", BundlePath := "/b/c1", Status := "running", Pids := [10, 11], sysPid := 10 }

/-- Witness for C10: pids [10, 11] are returned as integers, and a missing
container yields the "invalid state response" error. -/
theorem GetPidsForContainer_spec_witness :
    envC10.stateRPC "c1" = Except.ok [contC10] ∧
    findContainer "c1" [contC10] = some contC10 ∧
    (GetPidsForContainer envC10 "c1").2 = Except.ok [(10 : Int), 11] ∧
    (GetPidsForContainer envC10 "c2").2 = Except.error "invalid state response" := by
  have h1 := (GetPidsForContainer_spec envC10 "c1").1 [contC10] contC10 (by rfl) (by rfl)
  have h2 := (GetPidsForContainer_spec envC10 "c2").2 [] (by rfl) (by rfl)
  exact ⟨rfl, rfl, by rw [h1.1]; rfl, h2⟩

end Libcontainerd
